import Mathlib

/-!
Verification development for the TPC-MCP remote-control server
(`src/tpc_server.py`).  The Python module keeps a handful of module-level
globals for the auto-refresh capture loop and exposes stateless tool
handlers.  Below, the globals are collected into an explicit `ServerState`
record, each tool handler becomes a pure function of that state (plus
oracles for the operating-system collaborators: screen grabber, subprocess
runner, filesystem), and the background capture thread becomes explicit
events interleaved with the tool calls.
-/

/-- The module-level globals of `tpc_server.py` (lines 34-38):
`_refresh_active`, `_refresh_interval`, the quality argument held by the
running capture thread, whether `_refresh_thread` has ever been assigned a
thread object, whether that thread `is_alive()`, `_last_screenshot`
(`None` or a bytes value, modelled as `Option (List Nat)`) and
`_last_screenshot_time`. -/
structure ServerState where
  refresh_active : Bool
  refresh_interval : Int
  refresh_quality : Int
  thread_exists : Bool
  thread_alive : Bool
  last_screenshot : Option (List Nat)
  last_screenshot_time : Nat
deriving Repr, DecidableEq

/-- Initial global state (lines 34-38): no thread, no frame, interval 0,
time 0. -/
def initState : ServerState :=
  { refresh_active := false
  , refresh_interval := 0
  , refresh_quality := 0
  , thread_exists := false
  , thread_alive := false
  , last_screenshot := none
  , last_screenshot_time := 0 }

/-- Line 147: `interval = max(2, min(60, interval))`. -/
def clampInterval (interval : Int) : Int := max 2 (min 60 interval)

/-- Line 51 in `capture_screen`: `quality = max(1, min(100, quality))`. -/
def capture_screen_quality (quality : Int) : Int := max 1 (min 100 quality)

/-- Line 78 in `capture_window`: `quality = max(1, min(100, quality))`. -/
def capture_window_quality (quality : Int) : Int := max 1 (min 100 quality)

/-- Line 148 in `start_auto_refresh`: `quality = max(1, min(100, quality))`. -/
def start_auto_refresh_quality (quality : Int) : Int := max 1 (min 100 quality)

/-- `start_auto_refresh` (lines 134-168).  Clamps its arguments; if the
loop is already running (`_refresh_active and _refresh_thread and
_refresh_thread.is_alive()`) it returns the already-running message built
from the stored `_refresh_interval` and changes nothing.  Otherwise it
records the clamped interval, spawns the capture thread (which sets
`_refresh_active = True` as its first action, line 114) with the clamped
interval and quality as its arguments, and reports the started message. -/
def start_auto_refresh (s : ServerState) (interval quality : Int) :
    ServerState × String :=
  let interval2 := clampInterval interval
  let quality2 := start_auto_refresh_quality quality
  if s.refresh_active && s.thread_exists && s.thread_alive then
    (s, "Auto-refresh is already running with interval " ++
        toString s.refresh_interval ++ " seconds.")
  else
    ({ refresh_active := true
     , refresh_interval := interval2
     , refresh_quality := quality2
     , thread_exists := true
     , thread_alive := true
     , last_screenshot := s.last_screenshot
     , last_screenshot_time := s.last_screenshot_time }
    , "Auto-refresh started with " ++ toString interval2 ++
      " second interval at " ++ toString quality2 ++ "% quality.")

/-- `stop_auto_refresh` (lines 170-185).  If no loop is running it returns
the not-running message with no side effect; otherwise it clears
`_refresh_active` and does a best-effort `join(1.0)` — the thread itself
keeps sleeping for up to the configured interval (>= 2 seconds) before it
observes the cleared flag, so the join is not modelled as terminating the
thread: the thread exits later via `Ev.threadExit`. -/
def stop_auto_refresh (s : ServerState) : ServerState × String :=
  if !s.refresh_active || !s.thread_exists || !s.thread_alive then
    (s, "Auto-refresh is not currently running.")
  else
    ({ s with refresh_active := false }, "Auto-refresh has been stopped.")

/-- One successful iteration of `_refresh_capture_thread`'s `while` body
(lines 115-127): the grab and encode succeed, and the thread stores the
encoded bytes into `_last_screenshot` and the current time into
`_last_screenshot_time`, then sleeps. -/
def refresh_capture_cycle_ok (s : ServerState) (frame : List Nat) (t : Nat) :
    ServerState :=
  { s with last_screenshot := some frame, last_screenshot_time := t }

/-- One failing iteration of the `while` body (lines 128-129): the bare
`except:` swallows the error and the thread just sleeps for the interval;
no global is written, the loop continues. -/
def refresh_capture_cycle_fail (s : ServerState) : ServerState := s

/-- The thread observes `_refresh_active == False` at the top of the
`while` loop and exits, executing line 132: `_last_screenshot = None`. -/
def refresh_capture_exit (s : ServerState) : ServerState :=
  { s with thread_alive := false, last_screenshot := none }

/-- Events of the interleaved execution: tool calls by the dispatcher and
steps of the background capture thread. -/
inductive Ev where
  | startEv (interval quality : Int)
  | stopEv
  | cycleOk (frame : List Nat) (t : Nat)
  | cycleFail
  | threadExit
deriving Repr, DecidableEq

/-- Interleaving step.  Thread events are guarded by the thread's own
control flow: a capture cycle happens only while the thread is alive and
the flag is set; the thread exits only once the flag is cleared. -/
def stepEv (s : ServerState) (e : Ev) : ServerState :=
  match e with
  | .startEv i q => (start_auto_refresh s i q).1
  | .stopEv => (stop_auto_refresh s).1
  | .cycleOk f t =>
      if s.thread_alive && s.refresh_active then refresh_capture_cycle_ok s f t else s
  | .cycleFail => refresh_capture_cycle_fail s
  | .threadExit =>
      if s.thread_alive && !s.refresh_active then refresh_capture_exit s else s

/-- Run a sequence of events from a state. -/
def runEvents (s : ServerState) (es : List Ev) : ServerState := es.foldl stepEv s

/-- Result of `get_last_screenshot`, abstracting the two return branches:
the no-screenshot message, or the markdown answer carrying the stored
bytes and their age in seconds. -/
inductive FetchResult where
  | unavailable
  | frame (bytes : List Nat) (age : Nat)
deriving Repr, DecidableEq

/-- `get_last_screenshot` (lines 187-205).  `if not _last_screenshot:`
is Python truthiness: both `None` and the empty bytes value are falsy and
yield the unavailable message; otherwise the stored bytes are returned
together with `time.time() - _last_screenshot_time`. -/
def get_last_screenshot (s : ServerState) (now : Nat) : FetchResult :=
  match s.last_screenshot with
  | none => .unavailable
  | some b => if b.isEmpty then .unavailable
              else .frame b (now - s.last_screenshot_time)

/-- Outcome of a `subprocess.run` call as seen by the caller: normal
completion with captured stdout/stderr/returncode, a raised
`subprocess.TimeoutExpired`, or any other raised exception. -/
inductive ProcResult where
  | completed (stdout stderr : String) (returncode : Int)
  | timeoutExpired
  | raised (msg : String)
deriving Repr, DecidableEq

/-- The `try`/`except` body of `execute_command` (lines 270-288) applied
to the subprocess outcome.  On completion the code computes
`output = result.stdout or result.stderr` — Python `or` yields stdout if
it is non-empty, otherwise stderr — and formats it with the exit code.
The `TimeoutExpired` branch returns the fixed timed-out message and the
generic branch the error message. -/
def formatCommandResult : ProcResult → String
  | .completed out err code =>
      let output := if out = "" then err else out
      "Command executed with exit code " ++ toString code ++
        ":\n\n```\n" ++ output ++ "\n```"
  | .timeoutExpired => "Command timed out after 30 seconds"
  | .raised e => "Error executing command: " ++ e

/-- `execute_command` (lines 261-288): runs the command string through the
shell with `timeout=30` (the oracle `runShell` receives the timeout the
code passes to `subprocess.run`) and formats the outcome. -/
def execute_command (runShell : Nat → ProcResult) : String :=
  formatCommandResult (runShell 30)

/-- The formatting part of `execute_powershell` (lines 299-327), same
shape as `formatCommandResult` with the PowerShell wording. -/
def formatPowershellResult : ProcResult → String
  | .completed out err code =>
      let output := if out = "" then err else out
      "PowerShell script executed with exit code " ++ toString code ++
        ":\n\n```\n" ++ output ++ "\n```"
  | .timeoutExpired => "PowerShell script timed out after 60 seconds"
  | .raised e => "Error executing PowerShell script: " ++ e

/-- `execute_powershell` (lines 290-327): writes the script to a temp
file and runs it with `timeout=60`. -/
def execute_powershell (runPS : Nat → ProcResult) : String :=
  formatPowershellResult (runPS 60)

/-- An existing regular file as seen by `read_file`: its `os.path.getsize`
and the text obtained by opening and reading it. -/
structure RegFile where
  size : Nat
  content : String
deriving Repr, DecidableEq

/-- The three return branches of `read_file` (lines 518-549): missing
path, the too-large refusal (which reports the file's actual size), or
the file contents. -/
inductive ReadFileResult where
  | notFound
  | tooLarge (size : Nat)
  | contents (text : String)
deriving Repr, DecidableEq

/-- `read_file` (lines 518-549): refuse when the path does not exist;
refuse with the actual size when `os.path.getsize(full_path) > 1024 *
1024`; otherwise return the contents. -/
def read_file : Option RegFile → ReadFileResult
  | none => .notFound
  | some f => if f.size > 1024 * 1024 then .tooLarge f.size else .contents f.content

/-- One entry of `os.listdir` as collected by `list_directory`
(lines 488-500): name, whether `os.path.isdir` holds, `os.path.getsize`
for files, and the formatted mtime. -/
structure DirEntry where
  name : String
  isDir : Bool
  size : Nat
  modified : String
deriving Repr, DecidableEq

/-- One output row of the listing table (lines 510-512): columns
`Name`, `Type`, `Size`, `Modified`; the size column is the empty string
for directories (modelled as `none`) and the formatted byte count for
files (modelled as `some size`). -/
structure DirRow where
  name : String
  type : String
  sizeField : Option Nat
  modified : String
deriving Repr, DecidableEq

/-- Lexicographic comparison of char lists by code point, the order
Python uses for `str` comparison inside the sort key. -/
def charListLe : List Char → List Char → Bool
  | [], _ => true
  | _ :: _, [] => false
  | a :: as, b :: bs =>
      if a < b then true else if b < a then false else charListLe as bs

/-- The sort key of line 503:
`key=lambda x: (0 if x['type'] == 'Directory' else 1, x['name'])`,
compared the way Python compares tuples: first component, then name. -/
def entryLe (a b : DirEntry) : Prop :=
  (if a.isDir then (0 : Nat) else 1) < (if b.isDir then (0 : Nat) else 1)
  ∨ ((if a.isDir then (0 : Nat) else 1) = (if b.isDir then (0 : Nat) else 1)
     ∧ charListLe a.name.data b.name.data = true)

instance : DecidableRel entryLe := fun a b =>
  inferInstanceAs (Decidable (_ ∨ (_ ∧ _)))

/-- Row formatting of lines 510-512. -/
def dirRowOf (e : DirEntry) : DirRow :=
  { name := e.name
  , type := if e.isDir then "Directory" else "File"
  , sizeField := if e.isDir then none else some e.size
  , modified := e.modified }

/-- `list_directory` (lines 466-514), restricted to an existing
directory: collect the entries, sort them stably by
`(0 if directory else 1, name)` (line 503), and format each row with a
blank size for directories. -/
def list_directory (entries : List DirEntry) : List DirRow :=
  (List.insertionSort entryLe entries).map dirRowOf

/-- The ordering the spec states for output rows: all directories before
all files, alphabetical by name within each group. -/
def dirRowLe (r1 r2 : DirRow) : Prop :=
  (r1.type = "Directory" ∧ r2.type = "File")
  ∨ (r1.type = r2.type ∧ charListLe r1.name.data r2.name.data = true)

/-- The two shared globals written by the capture thread each cycle
(lines 123-124) as plain independent fields, for the fine-grained
interleaving model of `get_last_screenshot` versus the thread. -/
structure SharedPair where
  frame : Option (List Nat)
  time : Nat
deriving Repr, DecidableEq

/-- What a run of `get_last_screenshot` has read so far: the truthiness
check on `_last_screenshot` (line 195), the read of
`_last_screenshot_time` (line 199), and the re-read of
`_last_screenshot` for encoding (line 202). -/
structure ReaderObs where
  checked : Option (List Nat)
  obsTime : Nat
  obsFrame : Option (List Nat)
deriving Repr, DecidableEq

/-- Atomic accesses to the two globals.  Under the interpreter lock each
single assignment or read of one global is atomic, but nothing groups the
two assignments of lines 123-124 together. -/
inductive MicroOp where
  | writeFrame (f : List Nat)
  | writeTime (t : Nat)
  | readerCheckFrame
  | readerReadTime
  | readerReadFrame
deriving Repr, DecidableEq

def microStep : SharedPair × ReaderObs → MicroOp → SharedPair × ReaderObs
  | (sh, ob), .writeFrame f => ({ sh with frame := some f }, ob)
  | (sh, ob), .writeTime t => ({ sh with time := t }, ob)
  | (sh, ob), .readerCheckFrame => (sh, { ob with checked := sh.frame })
  | (sh, ob), .readerReadTime => (sh, { ob with obsTime := sh.time })
  | (sh, ob), .readerReadFrame => (sh, { ob with obsFrame := sh.frame })

def runMicro (init : SharedPair × ReaderObs) (ops : List MicroOp) :
    SharedPair × ReaderObs := ops.foldl microStep init

/-- The write sequence of one successful capture cycle, lines 123-124:
`_last_screenshot = ...` then `_last_screenshot_time = ...`, two separate
assignments. -/
def writerCycle (f : List Nat) (t : Nat) : List MicroOp :=
  [.writeFrame f, .writeTime t]

/-- The read sequence of `get_last_screenshot`, lines 195-202. -/
def readerOps : List MicroOp :=
  [.readerCheckFrame, .readerReadTime, .readerReadFrame]

/-! ## Helper lemmas -/

theorem charListLe_total : ∀ as bs, charListLe as bs = true ∨ charListLe bs as = true
  | [], _ => Or.inl rfl
  | _ :: _, [] => Or.inr rfl
  | a :: as, b :: bs => by
    rcases lt_trichotomy a b with h | h | h
    · left; simp [charListLe, h]
    · subst h
      rcases charListLe_total as bs with ih | ih
      · left; simpa [charListLe, lt_irrefl] using ih
      · right; simpa [charListLe, lt_irrefl] using ih
    · right; simp [charListLe, h]

theorem charListLe_trans : ∀ as bs cs, charListLe as bs = true →
    charListLe bs cs = true → charListLe as cs = true
  | [], _, _, _, _ => rfl
  | _ :: _, [], _, h1, _ => by simp [charListLe] at h1
  | _ :: _, _ :: _, [], _, h2 => by simp [charListLe] at h2
  | a :: as, b :: bs, c :: cs, h1, h2 => by
    simp only [charListLe] at h1 h2 ⊢
    rcases lt_trichotomy a b with hab | hab | hab
    · rcases lt_trichotomy b c with hbc | hbc | hbc
      · simp [lt_trans hab hbc]
      · subst hbc; simp [hab]
      · rw [if_neg (lt_asymm hbc), if_pos hbc] at h2; simp at h2
    · subst hab
      rcases lt_trichotomy a c with hac | hac | hac
      · simp [hac]
      · subst hac
        rw [if_neg (lt_irrefl a), if_neg (lt_irrefl a)] at h1 h2 ⊢
        exact charListLe_trans as bs cs h1 h2
      · rw [if_neg (lt_asymm hac), if_pos hac] at h2; simp at h2
    · rw [if_neg (lt_asymm hab), if_pos hab] at h1; simp at h1

theorem entryLe_total : ∀ a b : DirEntry, entryLe a b ∨ entryLe b a := by
  intro a b
  unfold entryLe
  rcases Nat.lt_trichotomy (if a.isDir then (0 : Nat) else 1)
      (if b.isDir then (0 : Nat) else 1) with h | h | h
  · exact Or.inl (Or.inl h)
  · rcases charListLe_total a.name.data b.name.data with h2 | h2
    · exact Or.inl (Or.inr ⟨h, h2⟩)
    · exact Or.inr (Or.inr ⟨h.symm, h2⟩)
  · exact Or.inr (Or.inl h)

theorem entryLe_trans : ∀ a b c : DirEntry, entryLe a b → entryLe b c → entryLe a c := by
  intro a b c h1 h2
  unfold entryLe at h1 h2 ⊢
  rcases h1 with h1 | ⟨h1a, h1b⟩ <;> rcases h2 with h2 | ⟨h2a, h2b⟩
  · exact Or.inl (h1.trans h2)
  · exact Or.inl (by rw [← h2a]; exact h1)
  · exact Or.inl (by rw [h1a]; exact h2)
  · exact Or.inr ⟨h1a.trans h2a, charListLe_trans _ _ _ h1b h2b⟩

theorem append_ne_of_head_ne {a c : String} (b : String) {x y : Char}
    {xs ys : List Char} (ha : a.data = x :: xs) (hc : c.data = y :: ys)
    (hxy : x ≠ y) : a ++ b ≠ c := by
  intro h
  have h2 := congrArg String.data h
  rw [String.data_append, ha, hc, List.cons_append] at h2
  injection h2 with h3 _
  exact hxy h3

/-! ## Claims -/

/-- C2: in every state where the capture loop is running (the flag is set
and the thread object exists and is alive), calling `start_auto_refresh`
again with any interval and quality leaves the whole state unchanged and
returns the already-running status built from the currently effective
interval. -/
theorem C2_start_while_running_noop (s : ServerState) (interval quality : Int)
    (h : (s.refresh_active && s.thread_exists && s.thread_alive) = true) :
    start_auto_refresh s interval quality =
      (s, "Auto-refresh is already running with interval " ++
          toString s.refresh_interval ++ " seconds.") := by
  simp [start_auto_refresh, h]

theorem C2_witness :
    start_auto_refresh
      { refresh_active := true, refresh_interval := 7, refresh_quality := 42
      , thread_exists := true, thread_alive := true
      , last_screenshot := some [9], last_screenshot_time := 3 } 10 50 =
    ({ refresh_active := true, refresh_interval := 7, refresh_quality := 42
     , thread_exists := true, thread_alive := true
     , last_screenshot := some [9], last_screenshot_time := 3 },
     "Auto-refresh is already running with interval 7 seconds.") :=
  C2_start_while_running_noop _ 10 50 rfl

/-- C3: for every integer interval passed to `start_auto_refresh` when the
loop is not running, the recorded effective interval is the input clamped
to [2,60], and that clamp maps inputs below 2 to 2, above 60 to 60, and
leaves in-range inputs unchanged. -/
theorem C3_interval_clamped (interval : Int) (s : ServerState) (quality : Int)
    (h : (s.refresh_active && s.thread_exists && s.thread_alive) = false) :
    (start_auto_refresh s interval quality).1.refresh_interval = clampInterval interval
    ∧ clampInterval interval =
        (if interval < 2 then 2 else if 60 < interval then 60 else interval) := by
  constructor
  · simp [start_auto_refresh, h]
  · unfold clampInterval; omega

theorem C3_witness :
    (start_auto_refresh initState 0 60).1.refresh_interval = 2
    ∧ (start_auto_refresh initState 1000 60).1.refresh_interval = 60
    ∧ (start_auto_refresh initState 5 60).1.refresh_interval = 5 :=
  ⟨((C3_interval_clamped 0 initState 60 rfl).1).trans (by decide),
   ((C3_interval_clamped 1000 initState 60 rfl).1).trans (by decide),
   ((C3_interval_clamped 5 initState 60 rfl).1).trans (by decide)⟩

/-- C4: the three capture operations compute the effective quality with
extensionally equal clamping, and the common clamp constrains the input
to [1,100]. -/
theorem C4_quality_clamp_uniform (quality : Int) :
    capture_screen_quality quality = capture_window_quality quality
    ∧ capture_screen_quality quality = start_auto_refresh_quality quality
    ∧ capture_screen_quality quality =
        (if quality < 1 then 1 else if 100 < quality then 100 else quality) := by
  refine ⟨rfl, rfl, ?_⟩
  unfold capture_screen_quality; omega

/-- C6: for every existing regular file, `read_file` returns the contents
when the size is at most 1 MiB (1024*1024 bytes) and refuses with a
result reporting the actual size when the file is strictly larger. -/
theorem C6_read_file_size_limit (f : RegFile) :
    (f.size ≤ 1024 * 1024 → read_file (some f) = ReadFileResult.contents f.content)
    ∧ (f.size > 1024 * 1024 → read_file (some f) = ReadFileResult.tooLarge f.size) := by
  constructor
  · intro h
    have h2 : ¬ (f.size > 1024 * 1024) := by omega
    simp only [read_file, if_neg h2]
  · intro h
    simp only [read_file, if_pos h]

theorem C6_witness :
    read_file (some ⟨1048576, "x"⟩) = ReadFileResult.contents "x"
    ∧ read_file (some ⟨1048577, "y"⟩) = ReadFileResult.tooLarge 1048577 :=
  ⟨(C6_read_file_size_limit ⟨1048576, "x"⟩).1 (by decide),
   (C6_read_file_size_limit ⟨1048577, "y"⟩).2 (by decide)⟩

/-- C8: while the running flag is set, failing capture cycles never
change the state (any number of consecutive failures leaves the loop
exactly where it was, with the thread alive if it was alive), and the
thread cannot exit while the flag is set. -/
theorem C8_capture_failures_never_kill_loop (s : ServerState) (n : Nat)
    (h : s.refresh_active = true) :
    runEvents s (List.replicate n Ev.cycleFail) = s
    ∧ stepEv s Ev.threadExit = s := by
  constructor
  · induction n with
    | zero => rfl
    | succ k ih =>
      rw [List.replicate_succ]
      exact ih
  · simp [stepEv, h]

theorem C8_witness :
    runEvents
      { refresh_active := true, refresh_interval := 5, refresh_quality := 60
      , thread_exists := true, thread_alive := true
      , last_screenshot := some [7], last_screenshot_time := 11 }
      (List.replicate 3 Ev.cycleFail) =
      { refresh_active := true, refresh_interval := 5, refresh_quality := 60
      , thread_exists := true, thread_alive := true
      , last_screenshot := some [7], last_screenshot_time := 11 }
    ∧ stepEv
      { refresh_active := true, refresh_interval := 5, refresh_quality := 60
      , thread_exists := true, thread_alive := true
      , last_screenshot := some [7], last_screenshot_time := 11 } Ev.threadExit =
      { refresh_active := true, refresh_interval := 5, refresh_quality := 60
      , thread_exists := true, thread_alive := true
      , last_screenshot := some [7], last_screenshot_time := 11 } :=
  C8_capture_failures_never_kill_loop _ 3 rfl

/-- C10: `get_last_screenshot` decides availability by the stored value's
truthiness: if the stored frame is `None` or the empty bytes value, it
returns the unavailable result, regardless of the running flag or the
recorded capture timestamp. -/
theorem C10_truthiness (s : ServerState) (now : Nat)
    (h : s.last_screenshot = none ∨ s.last_screenshot = some []) :
    get_last_screenshot s now = FetchResult.unavailable := by
  rcases h with h | h <;> simp [get_last_screenshot, h]

theorem C10_witness :
    get_last_screenshot
      { refresh_active := true, refresh_interval := 5, refresh_quality := 60
      , thread_exists := true, thread_alive := true
      , last_screenshot := some [], last_screenshot_time := 5 } 9 =
      FetchResult.unavailable :=
  C10_truthiness _ 9 (Or.inr rfl)

/-- C1 (counterexample): the claim "immediately after stop has returned,
fetch_last reports unavailable" fails.  Concrete reachable trace: start,
one successful capture cycle storing frame [1,2,3] at time 100, then
stop; `stop_auto_refresh` only clears the flag and best-effort joins for
1 second while the thread sleeps for the configured interval, so the
frame is still stored when stop returns and `get_last_screenshot`
returns it, not the unavailable result. -/
theorem C1_counterexample_frame_survives_stop :
    get_last_screenshot
      (runEvents initState [Ev.startEv 5 60, Ev.cycleOk [1, 2, 3] 100, Ev.stopEv]) 101
      = FetchResult.frame [1, 2, 3] 1
    ∧ get_last_screenshot
        (runEvents initState [Ev.startEv 5 60, Ev.cycleOk [1, 2, 3] 100, Ev.stopEv]) 101
      ≠ FetchResult.unavailable := by
  exact ⟨rfl, by decide⟩

/-- C1 (amended): `get_last_screenshot` reports the unavailable result
before the loop has ever produced a frame, and after a stopped capture
thread has observed the cleared flag and exited (which clears the stored
frame); immediately after `stop_auto_refresh` returns the frame may still
be stored until the thread exits, and in every state with a nonempty
stored frame the call returns that frame together with its age (current
time minus the stored capture timestamp). -/
theorem C1_amended_availability :
    (∀ now, get_last_screenshot initState now = FetchResult.unavailable)
    ∧ (∀ (s : ServerState) (now : Nat), s.thread_alive = true → s.refresh_active = false →
        get_last_screenshot (stepEv s Ev.threadExit) now = FetchResult.unavailable)
    ∧ (∀ (s : ServerState) (now : Nat) (b : List Nat),
        s.last_screenshot = some b → b ≠ [] →
        get_last_screenshot s now =
          FetchResult.frame b (now - s.last_screenshot_time)) := by
  refine ⟨fun now => rfl, ?_, ?_⟩
  · intro s now h1 h2
    simp [stepEv, h1, h2, refresh_capture_exit, get_last_screenshot]
  · intro s now b hb hne
    simp [get_last_screenshot, hb, hne]

theorem C1_witness :
    get_last_screenshot initState 5 = FetchResult.unavailable
    ∧ get_last_screenshot
        (stepEv
          { refresh_active := false, refresh_interval := 5, refresh_quality := 60
          , thread_exists := true, thread_alive := true
          , last_screenshot := some [1], last_screenshot_time := 3 } Ev.threadExit) 9
        = FetchResult.unavailable
    ∧ get_last_screenshot
        { refresh_active := true, refresh_interval := 5, refresh_quality := 60
        , thread_exists := true, thread_alive := true
        , last_screenshot := some [1, 2], last_screenshot_time := 3 } 10
        = FetchResult.frame [1, 2] 7 :=
  ⟨C1_amended_availability.1 5,
   C1_amended_availability.2.1 _ 9 rfl rfl,
   C1_amended_availability.2.2 _ 10 [1, 2] rfl (by decide)⟩

/-- C5 (counterexample): the claim that command execution returns "the
combined output (stdout and stderr together)" fails.  With stdout "out"
and stderr "err" and exit code 0, the result contains only the stdout,
is identical to the result with stderr erased, and the stderr text does
not occur anywhere in it: `output = result.stdout or result.stderr`
selects one stream, it never combines both. -/
theorem C5_counterexample_stderr_dropped :
    execute_command (fun _ => ProcResult.completed "out" "err" 0) =
      "Command executed with exit code 0:\n\n```\nout\n```"
    ∧ execute_command (fun _ => ProcResult.completed "out" "err" 0) =
      execute_command (fun _ => ProcResult.completed "out" "" 0)
    ∧ ¬ ("err".data <:+:
        (execute_command (fun _ => ProcResult.completed "out" "err" 0)).data) := by
  refine ⟨by decide, rfl, by decide⟩

/-- C5 (amended): command execution passes the fixed timeout 30 to the
shell runner (60 for script-based PowerShell execution); on completion it
returns the exit code together with stdout if stdout is non-empty and
stderr otherwise (not both together); and the timed-out result is
distinct from the generic failure result for every failure message. -/
theorem C5_amended_execution (runShell runPS : Nat → ProcResult)
    (out err msg : String) (code : Int) (hout : out ≠ "") :
    execute_command runShell = formatCommandResult (runShell 30)
    ∧ execute_powershell runPS = formatPowershellResult (runPS 60)
    ∧ formatCommandResult (ProcResult.completed out err code) =
        "Command executed with exit code " ++ toString code ++
          ":\n\n```\n" ++ out ++ "\n```"
    ∧ formatCommandResult (ProcResult.completed "" err code) =
        "Command executed with exit code " ++ toString code ++
          ":\n\n```\n" ++ err ++ "\n```"
    ∧ formatCommandResult (ProcResult.raised msg) ≠
        formatCommandResult ProcResult.timeoutExpired
    ∧ formatPowershellResult (ProcResult.raised msg) ≠
        formatPowershellResult ProcResult.timeoutExpired := by
  refine ⟨rfl, rfl, by simp [formatCommandResult, hout], rfl, ?_, ?_⟩
  · exact append_ne_of_head_ne msg
      (show ("Error executing command: " : String).data =
        'E' :: ("rror executing command: " : String).data from rfl)
      (show ("Command timed out after 30 seconds" : String).data =
        'C' :: ("ommand timed out after 30 seconds" : String).data from rfl)
      (by decide)
  · exact append_ne_of_head_ne msg
      (show ("Error executing PowerShell script: " : String).data =
        'E' :: ("rror executing PowerShell script: " : String).data from rfl)
      (show ("PowerShell script timed out after 60 seconds" : String).data =
        'P' :: ("owerShell script timed out after 60 seconds" : String).data from rfl)
      (by decide)

theorem C5_witness :
    execute_command (fun _ => ProcResult.completed "o" "e" 0) =
      formatCommandResult (ProcResult.completed "o" "e" 0)
    ∧ execute_powershell (fun _ => ProcResult.timeoutExpired) =
      formatPowershellResult ProcResult.timeoutExpired
    ∧ formatCommandResult (ProcResult.completed "o" "e" 0) =
        "Command executed with exit code " ++ toString (0 : Int) ++
          ":\n\n```\n" ++ "o" ++ "\n```"
    ∧ formatCommandResult (ProcResult.completed "" "e" 0) =
        "Command executed with exit code " ++ toString (0 : Int) ++
          ":\n\n```\n" ++ "e" ++ "\n```"
    ∧ formatCommandResult (ProcResult.raised "boom") ≠
        formatCommandResult ProcResult.timeoutExpired
    ∧ formatPowershellResult (ProcResult.raised "boom") ≠
        formatPowershellResult ProcResult.timeoutExpired :=
  C5_amended_execution (fun _ => ProcResult.completed "o" "e" 0)
    (fun _ => ProcResult.timeoutExpired) "o" "e" "boom" 0 (by decide)

/-- C9: the frame record is NOT replaced as a single atomic unit — lines
123-124 are two independent global assignments, and `get_last_screenshot`
reads the two globals independently — so a reader interleaved between the
two writes of a cycle observes the new frame paired with the previous
cycle's timestamp.  Concrete interleaving: cycle 1 writes ([1], 10);
the reader performs its truthiness check and its timestamp read; cycle 2
writes ([2], 20) before the reader's final frame read; the reader ends up
pairing frame [2] with timestamp 10, which no single capture cycle
produced. -/
theorem C9_mismatched_pair_observable :
    ((runMicro (⟨none, 0⟩, ⟨none, 0, none⟩)
        (writerCycle [1] 10 ++ [MicroOp.readerCheckFrame, MicroOp.readerReadTime]
          ++ writerCycle [2] 20 ++ [MicroOp.readerReadFrame])).2.obsFrame,
     (runMicro (⟨none, 0⟩, ⟨none, 0, none⟩)
        (writerCycle [1] 10 ++ [MicroOp.readerCheckFrame, MicroOp.readerReadTime]
          ++ writerCycle [2] 20 ++ [MicroOp.readerReadFrame])).2.obsTime)
      = (some [2], 10)
    ∧ ((some [2] : Option (List Nat)), (10 : Nat)) ≠ (some [1], 10)
    ∧ ((some [2] : Option (List Nat)), (10 : Nat)) ≠ (some [2], 20) := by
  refine ⟨rfl, by decide, by decide⟩

/-- C7: `list_directory` returns one row per entry (columns Name, Type,
Size, Modified), ordered with all directories before all files and
alphabetically by name within each group, with the size column blank for
every directory row; on the example contents b.txt, a.txt, sub/ the
output order is sub, a.txt, b.txt. -/
theorem C7_list_directory_sorted :
    (∀ entries, (list_directory entries).Perm (entries.map dirRowOf))
    ∧ (∀ entries, (list_directory entries).Pairwise dirRowLe)
    ∧ (∀ entries r, r ∈ list_directory entries → r.type = "Directory" →
        r.sizeField = none)
    ∧ list_directory
        [⟨"b.txt", false, 10, "t1"⟩, ⟨"a.txt", false, 20, "t2"⟩,
         ⟨"sub", true, 4096, "t3"⟩]
      = [⟨"sub", "Directory", none, "t3"⟩, ⟨"a.txt", "File", some 20, "t2"⟩,
         ⟨"b.txt", "File", some 10, "t1"⟩] := by
  haveI : IsTotal DirEntry entryLe := ⟨entryLe_total⟩
  haveI : IsTrans DirEntry entryLe := ⟨entryLe_trans⟩
  refine ⟨?_, ?_, ?_, by decide⟩
  · intro entries
    exact (List.perm_insertionSort entryLe entries).map dirRowOf
  · intro entries
    refine List.Pairwise.map dirRowOf ?_ (List.sorted_insertionSort entryLe entries)
    intro a b hab
    unfold entryLe at hab
    unfold dirRowLe dirRowOf
    cases ha : a.isDir <;> cases hb : b.isDir <;> rw [ha, hb] at hab <;> simp at hab
    · exact Or.inr ⟨rfl, hab⟩
    · exact Or.inl ⟨rfl, rfl⟩
    · exact Or.inr ⟨rfl, hab⟩
  · intro entries r hmem htype
    obtain ⟨e, _, rfl⟩ := List.mem_map.mp hmem
    by_cases he : e.isDir
    · simp [dirRowOf, he]
    · exfalso
      simp [dirRowOf, he] at htype

theorem C7_witness :
    (⟨"sub", "Directory", none, "t3"⟩ : DirRow).sizeField = none :=
  C7_list_directory_sorted.2.2.1 [⟨"sub", true, 4096, "t3"⟩]
    ⟨"sub", "Directory", none, "t3"⟩ (by decide) rfl
